import Mathlib

set_option maxRecDepth 10000

/-!
Shallow embedding of the Curd Tracker backend (src/main.py): a FastAPI CRUD
service over a document store holding consumption entries.  The document store
is modelled as an optional list of documents (`none` when the database handle
`db` is `None`); each handler is a pure function from the store state and the
request data to the HTTP outcome and the resulting store state.
-/

namespace CurdTracker

/-- A timezone-aware UTC datetime, as produced by `datetime.now(timezone.utc)`. -/
structure UTCDateTime where
  year : Nat
  month : Nat
  day : Nat
  hour : Nat
  minute : Nat
  second : Nat
  microsecond : Nat
deriving DecidableEq

/-- Left-pad the decimal rendering of `n` with zeros to `width` characters. -/
def padNum (width n : Nat) : String :=
  let s := toString n
  String.mk (List.replicate (width - s.length) '0') ++ s

/-- Embedding of Python `datetime.isoformat()` for a timezone-aware UTC value:
`YYYY-MM-DDTHH:MM:SS[.ffffff]+00:00`, the microsecond part omitted when zero. -/
def UTCDateTime.isoformat (t : UTCDateTime) : String :=
  padNum 4 t.year ++ "-" ++ padNum 2 t.month ++ "-" ++ padNum 2 t.day ++ "T" ++
  padNum 2 t.hour ++ ":" ++ padNum 2 t.minute ++ ":" ++ padNum 2 t.second ++
  (if t.microsecond = 0 then "" else "." ++ padNum 6 t.microsecond) ++ "+00:00"

/-- Lowercase hexadecimal digit for a value below 16 (48 is the code of 0, 87 + 10
is the code of the letter a). -/
def hexDigitChar (n : Nat) : Char :=
  if n < 10 then Char.ofNat (48 + n) else Char.ofNat (87 + n)

/-- Embedding of `str(ObjectId)`: the 24-character lowercase hexadecimal rendering
of the 12-byte identifier, most significant digit first. -/
def oidToString (n : Nat) : String :=
  String.mk ((List.range 24).map (fun i => hexDigitChar (n / 16 ^ (23 - i) % 16)))

/-- Numeric value of one hexadecimal character, accepting both cases. -/
def hexVal (c : Char) : Option Nat :=
  if 48 ≤ c.toNat ∧ c.toNat ≤ 57 then some (c.toNat - 48)
  else if 97 ≤ c.toNat ∧ c.toNat ≤ 102 then some (c.toNat - 87)
  else if 65 ≤ c.toNat ∧ c.toNat ≤ 70 then some (c.toNat - 55)
  else none

/-- Embedding of `ObjectId(entry_id)` applied to a path parameter: it succeeds
exactly on 24-character hexadecimal strings and raises (here: `none`) otherwise. -/
def parseOid (s : String) : Option Nat :=
  if s.length = 24 then
    s.data.foldl (fun acc c => acc.bind (fun n => (hexVal c).map (fun v => 16 * n + v))) (some 0)
  else none

/-- A stored document of the `curdentry` collection.  `oid` is the `_id` value;
`created_at` and `updated_at` are datetimes when present (`updated_at` is absent
until the first non-empty update). -/
structure EntryDoc where
  oid : Nat
  date : String
  time : String
  quantity : Int
  amount : Int
  created_at : Option UTCDateTime
  updated_at : Option UTCDateTime
deriving DecidableEq

/-- The wire shape of an entry after `_serialize`: `_id` renamed to a string `id`,
datetime fields rendered as ISO strings. -/
structure SerializedEntry where
  id : String
  date : String
  time : String
  quantity : Int
  amount : Int
  created_at : Option String
  updated_at : Option String
deriving DecidableEq

/-- Embedding of `_serialize`: pops `_id` into a stringified `id` and maps every
value that has an `isoformat` attribute (here: the two datetime fields) through
`isoformat`; the remaining fields are passed through unchanged. -/
def _serialize (d : EntryDoc) : SerializedEntry :=
  { id := oidToString d.oid
    date := d.date
    time := d.time
    quantity := d.quantity
    amount := d.amount
    created_at := d.created_at.map UTCDateTime.isoformat
    updated_at := d.updated_at.map UTCDateTime.isoformat }

/-- The `curdentry` collection: the documents in natural order. -/
abbrev Store := List EntryDoc

/-- Embedding of `db[COLL].find_one({"_id": oid})`: the first document whose
`_id` equals `oid`. -/
def findOne (docs : Store) (oid : Nat) : Option EntryDoc :=
  docs.find? (fun d => d.oid == oid)

/-- Code-point key of a string; UTF-8 byte order coincides with code-point order,
so this is the key BSON string comparison sorts by. -/
def strKey (s : String) : List Nat := s.data.map Char.toNat

/-- Strict lexicographic order on code-point lists (shorter prefixes first). -/
def lexLt : List Nat → List Nat → Bool
  | [], [] => false
  | [], _ :: _ => true
  | _ :: _, [] => false
  | x :: xs, y :: ys => if x < y then true else if y < x then false else lexLt xs ys

/-- Comparator embedding `.sort([("date", -1), ("time", -1)])`: `a` may precede
`b` when `a.date` is greater, or the dates are equal and `a.time` is not smaller. -/
def entryLe (a b : EntryDoc) : Bool :=
  lexLt (strKey b.date) (strKey a.date) ||
    (strKey a.date == strKey b.date && !(lexLt (strKey a.time) (strKey b.time)))

/-- An HTTP outcome: a successful JSON body, or an error status code
(`HTTPException(status_code = n)`). -/
inductive Resp (α : Type) where
  | ok : α → Resp α
  | err : Nat → Resp α
deriving DecidableEq

/-- Embedding of `list_entries` (`GET /api/entries`): the empty list when `db` is
`None`, otherwise every document sorted by date descending then time descending,
each shaped by `_serialize`. -/
def list_entries (db : Option Store) : List SerializedEntry :=
  match db with
  | none => []
  | some docs => (List.insertionSort (fun a b => entryLe a b = true) docs).map _serialize

/-- The create payload (`CurdEntry` from schemas.py, not under src).  Modelled
from the spec: required `date`, `time`, `quantity`, `amount`. -/
structure CurdEntry where
  date : String
  time : String
  quantity : Int
  amount : Int
deriving DecidableEq

/-- Modelled from the spec: `create_document` lives in database.py, which is not
part of the source tree.  Per the spec it inserts a new document, stamps
`created_at` at insertion time, and returns the store-assigned identifier. -/
def create_document (docs : Store) (e : CurdEntry) (now : UTCDateTime) (newOid : Nat) :
    Store × Nat :=
  (docs ++ [{ oid := newOid, date := e.date, time := e.time, quantity := e.quantity,
              amount := e.amount, created_at := some now, updated_at := none }], newOid)

/-- Embedding of `create_entry` (`POST /api/entries`): 503 when `db` is `None`;
otherwise inserts through `create_document`, re-reads the document by its new id
and returns it serialized.  The 500 arm is the response-model failure were the
re-read to miss (unreachable when the new id is fresh). -/
def create_entry (db : Option Store) (e : CurdEntry) (now : UTCDateTime) (newOid : Nat) :
    Resp SerializedEntry × Option Store :=
  match db with
  | none => (Resp.err 503, none)
  | some docs =>
    let r := create_document docs e now newOid
    match findOne r.1 r.2 with
    | some d => (Resp.ok (_serialize d), some r.1)
    | none => (Resp.err 500, some r.1)

/-- The partial update payload (`CurdEntryUpdate`) after Pydantic parsing: every
field optional, defaulting to `None`. -/
structure CurdEntryUpdate where
  date : Option String
  time : Option String
  quantity : Option Int
  amount : Option Int
deriving DecidableEq

/-- Whether `payload.model_dump(exclude_none=True)` is the empty dict. -/
def emptyUpdate (p : CurdEntryUpdate) : Bool :=
  p.date.isNone && p.time.isNone && p.quantity.isNone && p.amount.isNone

/-- Effect of `{"$set": updates}` on one document, where `updates` holds the
non-null payload fields plus a fresh `updated_at`. -/
def applySet (p : CurdEntryUpdate) (now : UTCDateTime) (d : EntryDoc) : EntryDoc :=
  { d with
    date := p.date.getD d.date
    time := p.time.getD d.time
    quantity := p.quantity.getD d.quantity
    amount := p.amount.getD d.amount
    updated_at := some now }

/-- Embedding of `update_one({"_id": oid}, ...)` on the store: rewrites the first
matching document, leaves everything else in place. -/
def updateFirst (docs : Store) (oid : Nat) (f : EntryDoc → EntryDoc) : Store :=
  match docs with
  | [] => []
  | d :: ds => if d.oid == oid then f d :: ds else d :: updateFirst ds oid f

/-- Embedding of `update_entry` (`PUT /api/entries/{entry_id}`): 503 when `db` is
`None`; 400 when the id does not parse as an ObjectId; on an empty payload a
read-only no-op (404 when the document is missing); otherwise `$set` of the
supplied fields plus `updated_at`, 404 when `matched_count` is zero, and the
re-read updated document serialized on success.  The 500 arm is the
response-model failure were the re-read to miss (unreachable). -/
def update_entry (db : Option Store) (entry_id : String) (p : CurdEntryUpdate)
    (now : UTCDateTime) : Resp SerializedEntry × Option Store :=
  match db with
  | none => (Resp.err 503, none)
  | some docs =>
    match parseOid entry_id with
    | none => (Resp.err 400, some docs)
    | some oid =>
      if emptyUpdate p then
        match findOne docs oid with
        | none => (Resp.err 404, some docs)
        | some d => (Resp.ok (_serialize d), some docs)
      else
        match findOne docs oid with
        | none => (Resp.err 404, some docs)
        | some _ =>
          let docs2 := updateFirst docs oid (applySet p now)
          match findOne docs2 oid with
          | some d2 => (Resp.ok (_serialize d2), some docs2)
          | none => (Resp.err 500, some docs2)

/-- Embedding of `delete_one({"_id": oid})` on the store: removes the first
matching document. -/
def deleteFirst (docs : Store) (oid : Nat) : Store :=
  match docs with
  | [] => []
  | d :: ds => if d.oid == oid then ds else d :: deleteFirst ds oid

/-- The `{"ok": True}` body of a successful delete. -/
structure OkBody where
  ok : Bool
deriving DecidableEq

/-- Embedding of `delete_entry` (`DELETE /api/entries/{entry_id}`): 503 when `db`
is `None`; 400 when the id does not parse; 404 when `deleted_count` is zero;
otherwise removes the document and reports `{"ok": True}`. -/
def delete_entry (db : Option Store) (entry_id : String) : Resp OkBody × Option Store :=
  match db with
  | none => (Resp.err 503, none)
  | some docs =>
    match parseOid entry_id with
    | none => (Resp.err 400, some docs)
    | some oid =>
      match findOne docs oid with
      | none => (Resp.err 404, some docs)
      | some _ => (Resp.ok { ok := true }, some (deleteFirst docs oid))

/-- One field of the raw JSON update body before Pydantic parsing: the key may be
absent, explicitly null, or carry a value. -/
inductive JField (α : Type) where
  | absent : JField α
  | null : JField α
  | val : α → JField α
deriving DecidableEq

/-- Pydantic parsing of an `Optional` field defaulting to `None`: an absent key
and an explicit null both become `None`. -/
def JField.parse : JField α → Option α
  | .absent => none
  | .null => none
  | .val a => some a

/-- The raw JSON body of a `PUT /api/entries/{id}` request. -/
structure RawUpdatePayload where
  date : JField String
  time : JField String
  quantity : JField Int
  amount : JField Int
deriving DecidableEq

/-- Parsing the raw body into `CurdEntryUpdate`, field by field. -/
def parsePayload (rp : RawUpdatePayload) : CurdEntryUpdate :=
  { date := rp.date.parse
    time := rp.time.parse
    quantity := rp.quantity.parse
    amount := rp.amount.parse }

/-- Rewrite an explicit null into an absent key, leaving values alone. -/
def JField.nullToAbsent : JField α → JField α
  | .absent => .absent
  | .null => .absent
  | .val a => .val a

/-- Drop every explicit null of a raw body, keeping the supplied values. -/
def scrubNulls (rp : RawUpdatePayload) : RawUpdatePayload :=
  { date := rp.date.nullToAbsent
    time := rp.time.nullToAbsent
    quantity := rp.quantity.nullToAbsent
    amount := rp.amount.nullToAbsent }

/-- The `/test` status object. -/
structure TestResponse where
  backend : String
  database : String
  database_url : String
  database_name : String
  connection_status : String
  collections : List String
deriving DecidableEq

/-- Embedding of `test_database` (`GET /test`).  `url_set` and `name_set` say
whether the two environment variables are set; `dbp` is `none` when the handle
`db` is `None`, and otherwise carries the outcome of the
`db.list_collection_names()` probe, `Except.error` being a raised exception whose
message is caught and truncated to 80 characters. -/
def test_database (url_set name_set : Bool) (dbp : Option (Except String (List String))) :
    TestResponse :=
  let base : TestResponse :=
    { backend := "✅ Running"
      database := "❌ Not Available"
      database_url := if url_set then "✅ Set" else "❌ Not Set"
      database_name := if name_set then "✅ Set" else "❌ Not Set"
      connection_status := "Not Connected"
      collections := [] }
  match dbp with
  | none => base
  | some (Except.ok cols) =>
    { base with database := "✅ Available", connection_status := "Connected",
                collections := cols }
  | some (Except.error e) =>
    { base with database := "❌ Error: " ++ e.take 80, connection_status := "Connected" }

/-- The descending (date, time) order on serialized entries, as they appear on
the wire: later dates first, ties broken by later times first. -/
def descOrder (x y : SerializedEntry) : Prop :=
  lexLt (strKey y.date) (strKey x.date) = true ∨
  (strKey x.date = strKey y.date ∧ lexLt (strKey x.time) (strKey y.time) = false)

/-- Entry dated 2024-01-01 at 09:00, from the sorting example of the spec. -/
def exDoc1 : EntryDoc :=
  { oid := 1, date := "2024-01-01", time := "09:00", quantity := 1, amount := 1,
    created_at := none, updated_at := none }

/-- Entry dated 2024-01-02 at 08:00, from the sorting example of the spec. -/
def exDoc2 : EntryDoc :=
  { oid := 2, date := "2024-01-02", time := "08:00", quantity := 1, amount := 1,
    created_at := none, updated_at := none }

/-- Entry dated 2024-01-02 at 10:00, from the sorting example of the spec. -/
def exDoc3 : EntryDoc :=
  { oid := 3, date := "2024-01-02", time := "10:00", quantity := 1, amount := 1,
    created_at := none, updated_at := none }

/-- A concrete datetime used to exercise the handlers. -/
def wNow : UTCDateTime :=
  { year := 2024, month := 1, day := 3, hour := 12, minute := 30, second := 45,
    microsecond := 123456 }

/-- A concrete stored document with `_id` 1. -/
def wDoc : EntryDoc :=
  { oid := 1, date := "2024-01-01", time := "09:00", quantity := 2, amount := 30,
    created_at := some wNow, updated_at := none }

/-- The well-formed ObjectId string for `_id` 1. -/
def wId : String := "000000000000000000000001"

/-- A malformed identifier. -/
def wBadId : String := "zz"

/-- The empty partial payload. -/
def emptyPay : CurdEntryUpdate :=
  { date := none, time := none, quantity := none, amount := none }

/-- The partial payload supplying only `quantity = 5`. -/
def quantityPay : CurdEntryUpdate :=
  { date := none, time := none, quantity := some 5, amount := none }

/-- A concrete create payload. -/
def wEntry : CurdEntry :=
  { date := "2024-01-05", time := "07:30", quantity := 1, amount := 20 }

/-! Order-theoretic facts about the comparator, needed to show the listing is a
sorted permutation of the store. -/

theorem lexLt_asymm : ∀ (a b : List Nat), lexLt a b = true → lexLt b a = false := by
  intro a
  induction a with
  | nil =>
    intro b h
    cases b with
    | nil => simp [lexLt] at h
    | cons y ys => simp [lexLt]
  | cons x xs ih =>
    intro b h
    cases b with
    | nil => simp [lexLt] at h
    | cons y ys =>
      simp only [lexLt] at h ⊢
      by_cases h1 : x < y
      · simp [h1, Nat.lt_asymm h1]
      · by_cases h2 : y < x
        · simp [h1, h2] at h
        · simp [h1, h2] at h ⊢
          exact ih ys h

theorem lexLt_trans :
    ∀ (a b c : List Nat), lexLt a b = true → lexLt b c = true → lexLt a c = true := by
  intro a
  induction a with
  | nil =>
    intro b c hab hbc
    cases b with
    | nil => simp [lexLt] at hab
    | cons y ys =>
      cases c with
      | nil => simp [lexLt] at hbc
      | cons z zs => simp [lexLt]
  | cons x xs ih =>
    intro b c hab hbc
    cases b with
    | nil => simp [lexLt] at hab
    | cons y ys =>
      cases c with
      | nil => simp [lexLt] at hbc
      | cons z zs =>
        simp only [lexLt] at hab hbc ⊢
        have Hab : x < y ∨ (x = y ∧ lexLt xs ys = true) := by
          by_cases h1 : x < y
          · exact Or.inl h1
          · by_cases h2 : y < x
            · simp [h1, h2] at hab
            · exact Or.inr ⟨by omega, by simpa [h1, h2] using hab⟩
        have Hbc : y < z ∨ (y = z ∧ lexLt ys zs = true) := by
          by_cases h1 : y < z
          · exact Or.inl h1
          · by_cases h2 : z < y
            · simp [h1, h2] at hbc
            · exact Or.inr ⟨by omega, by simpa [h1, h2] using hbc⟩
        rcases Hab with h1 | ⟨h1, h1t⟩ <;> rcases Hbc with h2 | ⟨h2, h2t⟩
        · simp [show x < z by omega]
        · simp [show x < z by omega]
        · simp [show x < z by omega]
        · simp only [show ¬ x < z by omega, show ¬ z < x by omega, if_false]
          exact ih ys zs h1t h2t

theorem lexLt_conn :
    ∀ (a b : List Nat), lexLt a b = false → lexLt b a = false → a = b := by
  intro a
  induction a with
  | nil =>
    intro b h1 h2
    cases b with
    | nil => rfl
    | cons y ys => simp [lexLt] at h1
  | cons x xs ih =>
    intro b h1 h2
    cases b with
    | nil => simp [lexLt] at h2
    | cons y ys =>
      simp only [lexLt] at h1 h2
      by_cases hx : x < y
      · simp [hx] at h1
      · by_cases hy : y < x
        · simp [hy] at h2
        · have hxy : x = y := by omega
          have hys : xs = ys := ih ys (by simpa [hx, hy] using h1) (by simpa [hx, hy] using h2)
          rw [hxy, hys]

theorem entryLe_total : ∀ a b : EntryDoc, entryLe a b = true ∨ entryLe b a = true := by
  intro a b
  simp only [entryLe, Bool.or_eq_true, Bool.and_eq_true, beq_iff_eq, Bool.not_eq_true']
  by_cases h1 : lexLt (strKey b.date) (strKey a.date) = true
  · exact Or.inl (Or.inl h1)
  · by_cases h2 : lexLt (strKey a.date) (strKey b.date) = true
    · exact Or.inr (Or.inl h2)
    · have hd : strKey a.date = strKey b.date :=
        lexLt_conn _ _ (by simpa using h2) (by simpa using h1)
      by_cases h3 : lexLt (strKey a.time) (strKey b.time) = true
      · exact Or.inr (Or.inr ⟨hd.symm, lexLt_asymm _ _ h3⟩)
      · exact Or.inl (Or.inr ⟨hd, by simpa using h3⟩)

theorem entryLe_trans :
    ∀ a b c : EntryDoc, entryLe a b = true → entryLe b c = true → entryLe a c = true := by
  intro a b c hab hbc
  simp only [entryLe, Bool.or_eq_true, Bool.and_eq_true, beq_iff_eq, Bool.not_eq_true']
    at hab hbc ⊢
  rcases hab with h1 | ⟨h1, h1t⟩ <;> rcases hbc with h2 | ⟨h2, h2t⟩
  · exact Or.inl (lexLt_trans _ _ _ h2 h1)
  · exact Or.inl (h2 ▸ h1)
  · exact Or.inl (by rw [h1]; exact h2)
  · refine Or.inr ⟨h1.trans h2, ?_⟩
    cases hba : lexLt (strKey b.time) (strKey a.time) with
    | false =>
      have hts : strKey a.time = strKey b.time := lexLt_conn _ _ h1t hba
      rw [hts]
      exact h2t
    | true =>
      cases hc : lexLt (strKey a.time) (strKey c.time) with
      | false => rfl
      | true =>
        have := lexLt_trans _ _ _ hba hc
        rw [this] at h2t
        exact h2t

/-! Store helper lemmas. -/

theorem findOne_updateFirst (docs : Store) (oid : Nat) (f : EntryDoc → EntryDoc)
    (d : EntryDoc) (hf : ∀ x, (f x).oid = x.oid) (h : findOne docs oid = some d) :
    findOne (updateFirst docs oid f) oid = some (f d) := by
  induction docs with
  | nil => simp [findOne] at h
  | cons e es ih =>
    by_cases he : e.oid = oid
    · have hbeq : (e.oid == oid) = true := by simp [he]
      have hd : e = d := by
        have hfe : findOne (e :: es) oid = some e := by simp [findOne, List.find?, hbeq]
        rw [hfe] at h
        exact Option.some.inj h
      subst hd
      simp [updateFirst, hbeq, findOne, List.find?, hf e]
    · have hbeq : (e.oid == oid) = false := by simp [he]
      have h2 : findOne es oid = some d := by
        simpa [findOne, List.find?, hbeq] using h
      have h3 := ih h2
      simpa [updateFirst, hbeq, findOne, List.find?] using h3

theorem mem_updateFirst (docs : Store) (oid : Nat) (f : EntryDoc → EntryDoc)
    (e : EntryDoc) (he : e ∈ docs) (hne : e.oid ≠ oid) :
    e ∈ updateFirst docs oid f := by
  induction docs with
  | nil => simp at he
  | cons d ds ih =>
    rcases List.mem_cons.mp he with rfl | hmem
    · simp [updateFirst, hne]
    · by_cases hd : d.oid = oid
      · have hu : updateFirst (d :: ds) oid f = f d :: ds := by simp [updateFirst, hd]
        rw [hu]
        exact List.mem_cons.mpr (Or.inr hmem)
      · have hu : updateFirst (d :: ds) oid f = d :: updateFirst ds oid f := by
          simp [updateFirst, hd]
        rw [hu]
        exact List.mem_cons.mpr (Or.inr (ih hmem))

/-- C2: listing returns all entries ordered by date descending then time
descending (ties on date broken by time descending); on the three example
entries of the spec the returned order is 2024-01-02/10:00, 2024-01-02/08:00,
2024-01-01/09:00. -/
theorem list_entries_sorted_desc :
    (∀ docs : Store,
        (list_entries (some docs)).Perm (docs.map _serialize) ∧
        List.Pairwise descOrder (list_entries (some docs))) ∧
    list_entries (some [exDoc1, exDoc2, exDoc3]) =
      [_serialize exDoc3, _serialize exDoc2, _serialize exDoc1] := by
  constructor
  · intro docs
    constructor
    · exact (List.perm_insertionSort _ docs).map _serialize
    · have hs : List.Sorted (fun a b : EntryDoc => entryLe a b = true)
          (List.insertionSort (fun a b => entryLe a b = true) docs) :=
        @List.sorted_insertionSort EntryDoc (fun a b => entryLe a b = true) _
          ⟨entryLe_total⟩ ⟨entryLe_trans⟩ docs
      have hmp : List.Pairwise (fun a b : EntryDoc => descOrder (_serialize a) (_serialize b))
          (List.insertionSort (fun a b => entryLe a b = true) docs) :=
        hs.imp (fun {a b} h => by
          simp only [entryLe, Bool.or_eq_true, Bool.and_eq_true, beq_iff_eq,
            Bool.not_eq_true'] at h
          simpa [descOrder, _serialize] using h)
      exact List.pairwise_map.mpr hmp
  · decide

/-- C7: when the store handle is unavailable, listing returns the empty sequence
with a success response instead of failing. -/
theorem list_entries_unavailable : list_entries none = [] := rfl

/-- C1: updating an existing entry with a non-empty partial payload changes only
the supplied fields plus a freshly stamped `updated_at`, returns the resulting
entry, and leaves every unsupplied field — `date`, `time`, `quantity`, `amount`,
`created_at` — and every other entry unchanged. -/
theorem update_entry_frame
    (docs : Store) (entry_id : String) (p : CurdEntryUpdate) (now : UTCDateTime)
    (oid : Nat) (d : EntryDoc)
    (hoid : parseOid entry_id = some oid)
    (hfind : findOne docs oid = some d)
    (hnonempty : emptyUpdate p = false) :
    update_entry (some docs) entry_id p now =
      (Resp.ok (_serialize (applySet p now d)),
       some (updateFirst docs oid (applySet p now))) ∧
    (applySet p now d).updated_at = some now ∧
    (applySet p now d).created_at = d.created_at ∧
    (applySet p now d).oid = d.oid ∧
    (p.date = none → (applySet p now d).date = d.date) ∧
    (p.time = none → (applySet p now d).time = d.time) ∧
    (p.quantity = none → (applySet p now d).quantity = d.quantity) ∧
    (p.amount = none → (applySet p now d).amount = d.amount) ∧
    (∀ v, p.date = some v → (applySet p now d).date = v) ∧
    (∀ v, p.time = some v → (applySet p now d).time = v) ∧
    (∀ v, p.quantity = some v → (applySet p now d).quantity = v) ∧
    (∀ v, p.amount = some v → (applySet p now d).amount = v) ∧
    (∀ e ∈ docs, e.oid ≠ oid → e ∈ updateFirst docs oid (applySet p now)) := by
  have hupd : findOne (updateFirst docs oid (applySet p now)) oid =
      some (applySet p now d) :=
    findOne_updateFirst docs oid (applySet p now) d (fun x => rfl) hfind
  refine ⟨?_, rfl, rfl, rfl, ?_, ?_, ?_, ?_, ?_, ?_, ?_, ?_, ?_⟩
  · simp [update_entry, hoid, hnonempty, hfind, hupd]
  · intro h; simp [applySet, h]
  · intro h; simp [applySet, h]
  · intro h; simp [applySet, h]
  · intro h; simp [applySet, h]
  · intro v h; simp [applySet, h]
  · intro v h; simp [applySet, h]
  · intro v h; simp [applySet, h]
  · intro v h; simp [applySet, h]
  · intro e he hne; exact mem_updateFirst docs oid (applySet p now) e he hne

/-- Witness for C1: updating the one-document store with `{quantity: 5}` through
a well-formed id returns the entry with only `quantity` and `updated_at`
changed. -/
theorem update_entry_frame_witness :
    update_entry (some [wDoc]) wId quantityPay wNow =
      (Resp.ok (_serialize (applySet quantityPay wNow wDoc)),
       some (updateFirst [wDoc] 1 (applySet quantityPay wNow))) ∧
    (applySet quantityPay wNow wDoc).created_at = wDoc.created_at :=
  ⟨(update_entry_frame [wDoc] wId quantityPay wNow 1 wDoc (by decide) (by decide)
      (by decide)).1,
   (update_entry_frame [wDoc] wId quantityPay wNow 1 wDoc (by decide) (by decide)
      (by decide)).2.2.1⟩

/-- C3: with the store available, update and delete return 400 on a malformed
identifier and 404 on a well-formed identifier that matches no entry. -/
theorem update_delete_id_errors
    (docs : Store) (entry_id : String) (p : CurdEntryUpdate) (now : UTCDateTime) :
    (parseOid entry_id = none →
      (update_entry (some docs) entry_id p now).1 = Resp.err 400 ∧
      (delete_entry (some docs) entry_id).1 = Resp.err 400) ∧
    (∀ oid, parseOid entry_id = some oid → findOne docs oid = none →
      (update_entry (some docs) entry_id p now).1 = Resp.err 404 ∧
      (delete_entry (some docs) entry_id).1 = Resp.err 404) := by
  constructor
  · intro hbad
    constructor
    · simp [update_entry, hbad]
    · simp [delete_entry, hbad]
  · intro oid hoid hmiss
    constructor
    · by_cases he : emptyUpdate p = true <;>
        simp [update_entry, hoid, hmiss, he]
    · simp [delete_entry, hoid, hmiss]

/-- Witness for C3: a malformed id yields 400, a fresh well-formed id yields 404,
on both update and delete. -/
theorem update_delete_id_errors_witness :
    ((update_entry (some []) wBadId emptyPay wNow).1 = Resp.err 400 ∧
      (delete_entry (some []) wBadId).1 = Resp.err 400) ∧
    ((update_entry (some []) wId emptyPay wNow).1 = Resp.err 404 ∧
      (delete_entry (some []) wId).1 = Resp.err 404) :=
  ⟨(update_delete_id_errors [] wBadId emptyPay wNow).1 (by decide),
   (update_delete_id_errors [] wId emptyPay wNow).2 1 (by decide) (by decide)⟩

/-- C4: an update whose partial payload is empty is a read-only no-op — the
store is left untouched (so no field and no `updated_at` changes), the current
entry is returned unchanged, and a missing entry yields 404. -/
theorem update_entry_empty_noop
    (docs : Store) (entry_id : String) (p : CurdEntryUpdate) (now : UTCDateTime)
    (oid : Nat)
    (hoid : parseOid entry_id = some oid)
    (hempty : emptyUpdate p = true) :
    (update_entry (some docs) entry_id p now).2 = some docs ∧
    (∀ d, findOne docs oid = some d →
      (update_entry (some docs) entry_id p now).1 = Resp.ok (_serialize d)) ∧
    (findOne docs oid = none →
      (update_entry (some docs) entry_id p now).1 = Resp.err 404) := by
  refine ⟨?_, ?_, ?_⟩
  · cases hf : findOne docs oid with
    | none => simp [update_entry, hoid, hempty, hf]
    | some d => simp [update_entry, hoid, hempty, hf]
  · intro d hf
    simp [update_entry, hoid, hempty, hf]
  · intro hf
    simp [update_entry, hoid, hempty, hf]

/-- Witness for C4: the empty payload on a one-document store returns the stored
entry and leaves the store unchanged. -/
theorem update_entry_empty_noop_witness :
    (update_entry (some [wDoc]) wId emptyPay wNow).2 = some [wDoc] ∧
    (update_entry (some [wDoc]) wId emptyPay wNow).1 = Resp.ok (_serialize wDoc) :=
  ⟨(update_entry_empty_noop [wDoc] wId emptyPay wNow 1 (by decide) (by decide)).1,
   (update_entry_empty_noop [wDoc] wId emptyPay wNow 1 (by decide) (by decide)).2.1
     wDoc (by decide)⟩

/-- C5: creating an entry with a valid payload inserts a new document stamped
with `created_at` at insertion time and returns the full stored entry including
the store-assigned id; with the store unreachable it fails with 503. -/
theorem create_entry_spec
    (docs : Store) (e : CurdEntry) (now : UTCDateTime) (newOid : Nat)
    (hfresh : ∀ d ∈ docs, d.oid ≠ newOid) :
    create_entry (some docs) e now newOid =
      (Resp.ok { id := oidToString newOid, date := e.date, time := e.time,
                 quantity := e.quantity, amount := e.amount,
                 created_at := some now.isoformat, updated_at := none },
       some (docs ++ [{ oid := newOid, date := e.date, time := e.time,
                        quantity := e.quantity, amount := e.amount,
                        created_at := some now, updated_at := none }])) ∧
    (∀ (e2 : CurdEntry) (now2 : UTCDateTime) (oid2 : Nat),
      create_entry none e2 now2 oid2 = (Resp.err 503, none)) := by
  constructor
  · have hnone : List.find? (fun d => d.oid == newOid) docs = none :=
      List.find?_eq_none.mpr (fun x hx => by simp [hfresh x hx])
    simp [create_entry, create_document, findOne, List.find?_append, hnone,
      List.find?, _serialize]
  · intro e2 now2 oid2
    rfl

/-- Witness for C5: creating into the empty store returns the serialized new
entry with its assigned id and `created_at`. -/
theorem create_entry_spec_witness :
    create_entry (some []) wEntry wNow 1 =
      (Resp.ok { id := oidToString 1, date := wEntry.date, time := wEntry.time,
                 quantity := wEntry.quantity, amount := wEntry.amount,
                 created_at := some wNow.isoformat, updated_at := none },
       some ([] ++ [{ oid := 1, date := wEntry.date, time := wEntry.time,
                      quantity := wEntry.quantity, amount := wEntry.amount,
                      created_at := some wNow, updated_at := none }])) :=
  (create_entry_spec [] wEntry wNow 1 (fun d hd => absurd hd (List.not_mem_nil d))).1

/-- C6: one serialization, renaming `_id` to a stringified `id` and mapping
datetime fields through `isoformat`, is applied to every outbound entry of the
list, create and update responses. -/
theorem serialize_uniform :
    (∀ d : EntryDoc,
        _serialize d = { id := oidToString d.oid, date := d.date, time := d.time,
                         quantity := d.quantity, amount := d.amount,
                         created_at := d.created_at.map UTCDateTime.isoformat,
                         updated_at := d.updated_at.map UTCDateTime.isoformat }) ∧
    (∀ docs : Store, list_entries (some docs) =
        (List.insertionSort (fun a b => entryLe a b = true) docs).map _serialize) ∧
    (∀ (docs : Store) (e : CurdEntry) (now : UTCDateTime) (newOid : Nat)
        (s : SerializedEntry) (st : Option Store),
        create_entry (some docs) e now newOid = (Resp.ok s, st) →
        ∃ d, s = _serialize d) ∧
    (∀ (db : Option Store) (eid : String) (p : CurdEntryUpdate) (now : UTCDateTime)
        (s : SerializedEntry) (st : Option Store),
        update_entry db eid p now = (Resp.ok s, st) → ∃ d, s = _serialize d) := by
  refine ⟨fun d => rfl, fun docs => rfl, ?_, ?_⟩
  · intro docs e now newOid s st h
    simp only [create_entry] at h
    cases hf : findOne (create_document docs e now newOid).1
        (create_document docs e now newOid).2 with
    | none =>
      rw [hf] at h
      simp at h
    | some d =>
      rw [hf] at h
      simp at h
      exact ⟨d, h.1.symm⟩
  · intro db eid p now s st h
    cases db with
    | none => simp [update_entry] at h
    | some docs =>
      simp only [update_entry] at h
      cases ho : parseOid eid with
      | none =>
        rw [ho] at h
        simp at h
      | some oid =>
        rw [ho] at h
        by_cases he : emptyUpdate p = true
        · simp only [he, if_true] at h
          cases hf : findOne docs oid with
          | none =>
            rw [hf] at h
            simp at h
          | some d =>
            rw [hf] at h
            simp at h
            exact ⟨d, h.1.symm⟩
        · simp only [he, if_false] at h
          cases hf : findOne docs oid with
          | none =>
            rw [hf] at h
            simp at h
          | some d0 =>
            rw [hf] at h
            cases hf2 : findOne (updateFirst docs oid (applySet p now)) oid with
            | none =>
              rw [hf2] at h
              simp at h
            | some d2 =>
              rw [hf2] at h
              simp at h
              exact ⟨d2, h.1.symm⟩

/-- Witness for C6: the entry returned by a successful update is the
serialization of a stored document. -/
theorem serialize_uniform_witness : ∃ d, _serialize wDoc = _serialize d :=
  serialize_uniform.2.2.2 (some [wDoc]) wId emptyPay wNow (_serialize wDoc)
    (some [wDoc]) (by decide)

/-- C8: a field sent as an explicit null parses exactly like an omitted field,
so the two request bodies give the same parsed payload and the same update
outcome on any store. -/
theorem null_equals_absent (rp : RawUpdatePayload) (db : Option Store) (eid : String)
    (now : UTCDateTime) :
    parsePayload (scrubNulls rp) = parsePayload rp ∧
    update_entry db eid (parsePayload (scrubNulls rp)) now =
      update_entry db eid (parsePayload rp) now := by
  have hp : parsePayload (scrubNulls rp) = parsePayload rp := by
    obtain ⟨d, t, q, a⟩ := rp
    cases d <;> cases t <;> cases q <;> cases a <;> rfl
  exact ⟨hp, by rw [hp]⟩

/-- C9 counterexample: the actual store-configuration indicator strings carry
status marks — on a concrete input `database_url` is the string with the check
mark, not the bare "set" or "not set" the claim names. -/
theorem test_database_url_values_counterexample :
    (test_database true true none).database_url ≠ "set" ∧
    (test_database true true none).database_url ≠ "not set" ∧
    (test_database true true none).database_url = "✅ Set" := by
  decide

/-- C9 (amended): the `/test` status object carries exactly the six fields,
`database_url` and `database_name` each take one of the two values "✅ Set" and
"❌ Not Set" according to the environment, and a reachability-probe failure is
caught and reported as an error string truncated to 80 characters with empty
collections, never raised. -/
theorem test_database_spec (u n : Bool) (dbp : Option (Except String (List String)))
    (e : String) (cols : List String) :
    (test_database u n (some (Except.error e))).database = "❌ Error: " ++ e.take 80 ∧
    (test_database u n (some (Except.error e))).collections = [] ∧
    (test_database u n (some (Except.error e))).connection_status = "Connected" ∧
    (test_database u n dbp).backend = "✅ Running" ∧
    (test_database u n dbp).database_url = (if u then "✅ Set" else "❌ Not Set") ∧
    ((test_database u n dbp).database_url = "✅ Set" ∨
      (test_database u n dbp).database_url = "❌ Not Set") ∧
    (test_database u n dbp).database_name = (if n then "✅ Set" else "❌ Not Set") ∧
    ((test_database u n dbp).database_name = "✅ Set" ∨
      (test_database u n dbp).database_name = "❌ Not Set") ∧
    (test_database u n (some (Except.ok cols))).collections = cols ∧
    (test_database u n (some (Except.ok cols))).connection_status = "Connected" ∧
    (test_database u n none).connection_status = "Not Connected" := by
  have hu : ∀ dbp2 : Option (Except String (List String)),
      (test_database u n dbp2).database_url = (if u then "✅ Set" else "❌ Not Set") := by
    intro dbp2
    cases dbp2 with
    | none => rfl
    | some x => cases x <;> rfl
  have hn : ∀ dbp2 : Option (Except String (List String)),
      (test_database u n dbp2).database_name = (if n then "✅ Set" else "❌ Not Set") := by
    intro dbp2
    cases dbp2 with
    | none => rfl
    | some x => cases x <;> rfl
  have hb : ∀ dbp2 : Option (Except String (List String)),
      (test_database u n dbp2).backend = "✅ Running" := by
    intro dbp2
    cases dbp2 with
    | none => rfl
    | some x => cases x <;> rfl
  refine ⟨rfl, rfl, rfl, hb dbp, hu dbp, ?_, hn dbp, ?_, rfl, rfl, rfl⟩
  · rw [hu dbp]
    cases u
    · exact Or.inr rfl
    · exact Or.inl rfl
  · rw [hn dbp]
    cases n
    · exact Or.inr rfl
    · exact Or.inl rfl

/-- C10: the availability check runs before identifier validation — with the
store handle unavailable, update and delete answer 503 whatever the identifier,
and in particular never 400. -/
theorem store_check_precedes_id_validation
    (eid : String) (p : CurdEntryUpdate) (now : UTCDateTime) :
    (update_entry none eid p now).1 = Resp.err 503 ∧
    (delete_entry none eid).1 = Resp.err 503 ∧
    (update_entry none eid p now).1 ≠ Resp.err 400 ∧
    (delete_entry none eid).1 ≠ Resp.err 400 := by
  refine ⟨rfl, rfl, ?_, ?_⟩
  · intro h
    have h2 : (Resp.err 503 : Resp SerializedEntry) = Resp.err 400 := h
    exact absurd h2 (by decide)
  · intro h
    have h2 : (Resp.err 503 : Resp OkBody) = Resp.err 400 := h
    exact absurd h2 (by decide)

/-- Witness for C10: on a malformed identifier with the store down, both
operations answer 503, not 400. -/
theorem store_check_precedes_id_validation_witness :
    (update_entry none wBadId emptyPay wNow).1 = Resp.err 503 ∧
    (delete_entry none wBadId).1 = Resp.err 503 :=
  ⟨(store_check_precedes_id_validation wBadId emptyPay wNow).1,
   (store_check_precedes_id_validation wBadId emptyPay wNow).2.1⟩

end CurdTracker
